import Mathlib

/-!
Verification of the PropPredict data pipeline (`src/data/make_dataset.py`).

The script is a linear pandas/sklearn analysis pipeline.  We give a shallow
embedding of the parts the specification talks about:

* a table model (`Val`, `DF`) for the generic DataFrame operations
  (loading, quality checks, column selection, factorization);
* a typed row model (`HouseRow`) for the numeric outlier stage, where the
  exact rational arithmetic of quantiles, means and variances matters;
* exception-explicit models (`PyExc`, `Except`) for the file-loading
  error handling and for the unchecked `None` at module top level;
* oracle-parametrised models of the library calls (CSV parsing, model
  fitting, randomized estimators) whose internals are outside the script.

Machine floats are modelled by `ℚ`; `np.sqrt` (the only irrational
operation a claim mentions) is modelled by `Real.sqrt` on the cast.
Scipy's z-score comparison `|x - μ| / σ < 3` is embedded in the
equivalent squared form `(x - μ)² < 9·σ²`, which is exact on `ℚ`, agrees
with the float comparison whenever `σ > 0`, and also agrees with numpy's
NaN semantics when `σ = 0` (a NaN comparison is false, and the squared
form `0 < 0` is false as well).
-/

namespace PropPredict

/-- A cell of a pandas DataFrame: a number, a string, or a missing value
(NaN / None). -/
inductive Val where
  | num (q : ℚ)
  | str (s : String)
  | vnull
deriving DecidableEq

/-- Rendering of a cell, used only to build the strings the script prints. -/
def Val.render : Val → String
  | .num q => toString q
  | .str s => s
  | .vnull => "NaN"

/-- A pandas DataFrame: named columns and a list of rows, each row holding
one cell per column. -/
structure DF where
  cols : List String
  rows : List (List Val)
deriving DecidableEq

/-- `pd.read_csv(data_set.head())` print: the first five rows. -/
def DF.headStr (df : DF) : String :=
  String.intercalate "\n"
    ((df.rows.take 5).map (fun r => String.intercalate " " (r.map Val.render)))

/-- `data_set.info()` rendering (shape summary). -/
def DF.infoStr (df : DF) : String :=
  "RangeIndex: " ++ toString df.rows.length ++ " entries, "
    ++ toString df.cols.length ++ " columns"

/-- The Python exceptions the script can see: the two classes `load_dataset`
names, the `AttributeError` a method call on `None` raises, and any other
`Exception` subclass. -/
inductive PyExc where
  | fileNotFound (msg : String)
  | emptyDataError (msg : String)
  | attributeError (msg : String)
  | otherError (msg : String)
deriving DecidableEq

/-- The message carried by an exception (what `print("An error occurred:", e)`
shows). -/
def PyExc.message : PyExc → String
  | .fileNotFound m => m
  | .emptyDataError m => m
  | .attributeError m => m
  | .otherError m => m

/-- A Python `try` block: run the body; on an exception, if a handler
matches, its result is returned normally, otherwise the exception
propagates. -/
def pyTry (body : Except PyExc α) (handler : PyExc → Option α) : Except PyExc α :=
  match body with
  | .ok a => .ok a
  | .error e =>
    match handler e with
    | some a => .ok a
    | none => .error e

/-- `load_dataset` (make_dataset.py lines 23–41), with `pd.read_csv`
abstracted as an oracle that either returns a table or raises.  Returns the
loaded table (or `None`) together with the lines it prints. -/
def load_dataset (read_csv : String → Except PyExc DF) (file_path : String) :
    Option DF × List String :=
  match read_csv file_path with
  | .ok data_set => (some data_set, [data_set.headStr])
  | .error (.fileNotFound _) =>
    (none, ["The file was not found. Please check the file path."])
  | .error (.emptyDataError _) =>
    (none, ["The file is empty. Please provide a valid dataset."])
  | .error e => (none, ["An error occurred: " ++ e.message])

/-- `load_dataset` with its exception behaviour explicit: the `try` body is
`pd.read_csv` followed by the head-print and the return, and the three
`except` clauses (`FileNotFoundError`, `pd.errors.EmptyDataError`,
`Exception`) each print a diagnostic and fall through to `return None`.
The trailing `except Exception` clause matches every exception class. -/
def load_dataset_run (read_csv : String → Except PyExc DF) (file_path : String) :
    Except PyExc (Option DF × List String) :=
  pyTry ((read_csv file_path).map (fun data_set => (some data_set, [data_set.headStr])))
    (fun e =>
      match e with
      | .fileNotFound _ =>
        some (none, ["The file was not found. Please check the file path."])
      | .emptyDataError _ =>
        some (none, ["The file is empty. Please provide a valid dataset."])
      | e => some (none, ["An error occurred: " ++ e.message]))

/-- `DataFrame.duplicated().sum()`: the number of rows equal to some earlier
row (pandas marks every occurrence after the first). -/
def dupCountGo (seen : List (List Val)) : List (List Val) → ℕ
  | [] => 0
  | r :: rest => (if r ∈ seen then 1 else 0) + dupCountGo (r :: seen) rest

/-- Number of duplicate rows of a table. -/
def DF.dupCount (df : DF) : ℕ := dupCountGo [] df.rows

/-- The cells of column number `i` (missing cells read as null). -/
def DF.colCells (df : DF) (i : ℕ) : List Val :=
  df.rows.map (fun r => r.getD i .vnull)

/-- `DataFrame.isnull().sum()`: per column, the number of null cells. -/
def DF.nullCounts (df : DF) : List (String × ℕ) :=
  (List.range df.cols.length).map
    (fun i => (df.cols.getD i "", (df.colCells i).countP (· = Val.vnull)))

/-- Rendering of the null-count series the script prints. -/
def renderNullCounts (l : List (String × ℕ)) : List String :=
  l.map (fun p => p.1 ++ "    " ++ toString p.2)

/-- `check_data_quality` (make_dataset.py lines 44–61): takes the dataset
(possibly `None`), returns the printed lines, the argument as it stands
after the call (the function only reads it), and the Python return value,
which is always `None` (modelled by `Unit`, the one-value type). -/
def check_data_quality (data_set : Option DF) : List String × Option DF × Unit :=
  match data_set with
  | some ds =>
    (["Number of duplicate rows: " ++ toString ds.dupCount,
      "Null values in each column:"] ++ renderNullCounts ds.nullCounts,
     some ds, ())
  | none => (["Data set is None, cannot perform data quality checks."], none, ())

/-- The hard-coded CSV path of the script. -/
def the_file_path : String := "../../data/raw/data.csv"

/-- The module top level around loading (make_dataset.py lines 82–89):
`data_set = load_dataset(file_path)`, `check_data_quality(data_set)`, then
`data_set.info()` — the first method called on the result of
`load_dataset`, with no `None` check in between.  On `None`,
`data_set.info()` raises `AttributeError`, which nothing catches. -/
def script_prologue (read_csv : String → Except PyExc DF) :
    Except PyExc (List String) :=
  let loaded := load_dataset read_csv the_file_path
  let data_set := loaded.1
  let quality := check_data_quality data_set
  match data_set with
  | none =>
    .error (.attributeError "NoneType object has no attribute info")
  | some df => .ok (loaded.2 ++ quality.1 ++ [df.infoStr])

/-! ### Feature selection (`data_set = data_set[selected_features]`) -/

/-- The fixed column list of the first feature selection
(make_dataset.py line 162). -/
def selected_features : List String :=
  ["bedrooms", "bathrooms", "sqft_living", "sqft_lot", "sqft_above",
   "street", "city", "statezip", "yr_built", "price"]

/-- `df[sel]`: the table whose columns are exactly `sel`, in that order,
and whose rows are the rows of `df` restricted to those columns (pandas
column selection by a label list keeps every row, in order). -/
def DF.selectCols (df : DF) (sel : List String) : DF :=
  { cols := sel,
    rows := df.rows.map (fun r => sel.map (fun c => r.getD (df.cols.indexOf c) .vnull)) }

/-- The cell of row `i` at the column labelled `c` (first column of that
label, as pandas label lookup does). -/
def DF.cell (df : DF) (i : ℕ) (c : String) : Val :=
  (df.rows.getD i []).getD (df.cols.indexOf c) .vnull

/-! ### The outlier stage

After the feature selection the working table has the ten
`selected_features` columns; the outlier loops read only the numeric ones,
so the stage is embedded over a typed row. -/

/-- A row of the working table after feature selection. -/
structure HouseRow where
  bedrooms : ℚ
  bathrooms : ℚ
  sqft_living : ℚ
  sqft_lot : ℚ
  sqft_above : ℚ
  street : String
  city : String
  statezip : String
  yr_built : ℚ
  price : ℚ
deriving DecidableEq

/-- The numeric variables the outlier loops read. -/
inductive NumVar where
  | bedrooms | bathrooms | sqft_living | sqft_lot | sqft_above | yr_built
deriving DecidableEq

/-- Column access `data_set[var]` for a numeric variable. -/
def NumVar.get : NumVar → HouseRow → ℚ
  | .bedrooms => HouseRow.bedrooms
  | .bathrooms => HouseRow.bathrooms
  | .sqft_living => HouseRow.sqft_living
  | .sqft_lot => HouseRow.sqft_lot
  | .sqft_above => HouseRow.sqft_above
  | .yr_built => HouseRow.yr_built

/-- `continuous_discrete_vars` (make_dataset.py line 189): the variables the
IQR and Z-score detection loops check. -/
def continuous_discrete_vars : List NumVar :=
  [.bedrooms, .bathrooms, .sqft_living, .sqft_lot, .sqft_above, .yr_built]

/-- `variables_to_check` (make_dataset.py line 237): the variables the
Z-score removal uses — `yr_built` is excluded. -/
def variables_to_check : List NumVar :=
  [.bedrooms, .bathrooms, .sqft_living, .sqft_lot, .sqft_above]

/-- The column of values of `v` in the working table. -/
def colVals (t : List HouseRow) (v : NumVar) : List ℚ := t.map v.get

/-- Insert into a sorted list of rationals. -/
def insertSorted (x : ℚ) : List ℚ → List ℚ
  | [] => [x]
  | y :: ys => if x ≤ y then x :: y :: ys else y :: insertSorted x ys

/-- Ascending insertion sort of a list of rationals. -/
def sortQ : List ℚ → List ℚ
  | [] => []
  | x :: xs => insertSorted x (sortQ xs)

/-- `Series.quantile(q)` with the default linear interpolation: on the
sorted values `s` of length `n`, the value at fractional position
`h = (n-1)·q`, interpolated between `s[⌊h⌋]` and `s[⌊h⌋+1]`. -/
def pandasQuantile (xs : List ℚ) (q : ℚ) : ℚ :=
  let s := sortQ xs
  let h : ℚ := ((s.length : ℚ) - 1) * q
  let i : ℕ := (⌊h⌋).toNat
  let lo := s.getD i 0
  let hi := s.getD (i + 1) lo
  lo + (h - (⌊h⌋ : ℚ)) * (hi - lo)

/-- `Q1 - 1.5·IQR`, the lower IQR bound of `v` over the table. -/
def iqrLowerBound (t : List HouseRow) (v : NumVar) : ℚ :=
  let q1 := pandasQuantile (colVals t v) (1/4)
  let q3 := pandasQuantile (colVals t v) (3/4)
  q1 - (3/2) * (q3 - q1)

/-- `Q3 + 1.5·IQR`, the upper IQR bound of `v` over the table. -/
def iqrUpperBound (t : List HouseRow) (v : NumVar) : ℚ :=
  let q1 := pandasQuantile (colVals t v) (1/4)
  let q3 := pandasQuantile (colVals t v) (3/4)
  q3 + (3/2) * (q3 - q1)

/-- The IQR detection loop's selection (make_dataset.py lines 196–203):
`data_set[(data_set[var] < lower_bound) | (data_set[var] > upper_bound)]`. -/
def iqrOutliers (t : List HouseRow) (v : NumVar) : List HouseRow :=
  t.filter (fun r =>
    decide (v.get r < iqrLowerBound t v ∨ iqrUpperBound t v < v.get r))

/-- The mean of a list of rationals (`0` on the empty list, as `ℚ` division
by zero is zero). -/
def meanQ (xs : List ℚ) : ℚ := xs.sum / xs.length

/-- The population variance (`ddof = 0`, scipy's `zscore` default). -/
def popVar (xs : List ℚ) : ℚ :=
  ((xs.map (fun x => (x - meanQ xs) ^ 2)).sum) / xs.length

/-- `|zscore(x)| > 3` over column `v`, in the exact squared form
`(x - μ)² > 9·σ²` (see the header note): the Z-score detection loop's
test (make_dataset.py lines 205–208). -/
def zFlagged (t : List HouseRow) (v : NumVar) (r : HouseRow) : Prop :=
  (v.get r - meanQ (colVals t v)) ^ 2 > 9 * popVar (colVals t v)

instance (t : List HouseRow) (v : NumVar) (r : HouseRow) :
    Decidable (zFlagged t v r) := by unfold zFlagged; infer_instance

/-- `(np.abs(stats.zscore(data_set[variables_to_check])) < 3).all(axis=1)`
for one row (make_dataset.py lines 240–243), in the squared form. -/
def zKeep (t : List HouseRow) (r : HouseRow) : Bool :=
  variables_to_check.all (fun v =>
    decide ((v.get r - meanQ (colVals t v)) ^ 2 < 9 * popVar (colVals t v)))

/-- `dataset_cleaned = data_set[filtered_entries]` (make_dataset.py
line 244): keep exactly the rows whose five checked Z-scores are all
strictly below 3 in absolute value. -/
def dataset_cleaned (t : List HouseRow) : List HouseRow := t.filter (zKeep t)

/-- A five-row working table on which the IQR and Z-score methods disagree:
`sqft_lot` is `10` on the last row and `0` elsewhere, every other numeric
column alternates `1, 2, 1, 2, 1`. -/
def exRowA (street city : String) (a b : ℚ) : HouseRow :=
  { bedrooms := a, bathrooms := a, sqft_living := a, sqft_lot := b,
    sqft_above := a, street := street, city := city, statezip := "z",
    yr_built := a, price := 0 }

/-- The concrete table of the outlier counterexample. -/
def exTable : List HouseRow :=
  [exRowA "s0" "c" 1 0, exRowA "s1" "c" 2 0, exRowA "s2" "c" 1 0,
   exRowA "s3" "c" 2 0, exRowA "s4" "c" 1 10]

/-- The row of `exTable` that the IQR method flags on `sqft_lot`. -/
def exRow : HouseRow := exRowA "s4" "c" 1 10

/-! ### Model evaluation and selection -/

/-- One row of `metrics_df` (make_dataset.py lines 312–321).  The numeric
metrics are exact rationals; `rmse`, the stored value of `np.sqrt(mse)`,
is the real square root. -/
structure MetricsRow where
  model : String
  mae : ℚ
  mse : ℚ
  rmse : ℝ
  r2 : ℚ

/-- `sklearn.metrics.mean_absolute_error`. -/
def mean_absolute_error (y_true y_pred : List ℚ) : ℚ :=
  ((y_true.zip y_pred).map (fun t => |t.1 - t.2|)).sum / y_true.length

/-- `sklearn.metrics.mean_squared_error`. -/
def mean_squared_error (y_true y_pred : List ℚ) : ℚ :=
  ((y_true.zip y_pred).map (fun t => (t.1 - t.2) ^ 2)).sum / y_true.length

/-- `sklearn.metrics.r2_score`: `1 - SS_res / SS_tot`. -/
def r2_score (y_true y_pred : List ℚ) : ℚ :=
  1 - ((y_true.zip y_pred).map (fun t => (t.1 - t.2) ^ 2)).sum /
    ((y_true.map (fun v => (v - meanQ y_true) ^ 2)).sum)

/-- One iteration of the evaluation loop: the row appended to `metrics_df`
for the model `name` with prediction vector `pred`. -/
noncomputable def eval_row (y_test : List ℚ) (name : String) (pred : List ℚ) :
    MetricsRow :=
  { model := name,
    mae := mean_absolute_error y_test pred,
    mse := mean_squared_error y_test pred,
    rmse := Real.sqrt (mean_squared_error y_test pred),
    r2 := r2_score y_test pred }

/-- `metrics_df` after the evaluation loop: one row per entry of the
`predictions` mapping, in insertion order. -/
noncomputable def metrics_df (y_test : List ℚ) (predictions : List (String × List ℚ)) :
    List MetricsRow :=
  predictions.map (fun np => eval_row y_test np.1 np.2)

/-- `df.loc[df[col].idxmin()]`: the first row attaining the minimum of `f`
(`Series.idxmin` returns the first index of the minimal value; on an empty
table pandas raises, modelled by `none`). -/
def selectMinBy {α : Type} (f : α → ℚ) : List α → Option α
  | [] => none
  | r :: rest =>
    match selectMinBy f rest with
    | none => some r
    | some b => if f r ≤ f b then some r else some b

/-- `df.loc[df[col].idxmax()]`: the first row attaining the maximum. -/
def selectMaxBy {α : Type} (f : α → ℚ) : List α → Option α
  | [] => none
  | r :: rest =>
    match selectMaxBy f rest with
    | none => some r
    | some b => if f b ≤ f r then some r else some b

/-- `metrics_df.loc[metrics_df['MSE'].idxmin()]` (make_dataset.py
line 333). -/
def best_mse_model (l : List MetricsRow) : Option MetricsRow :=
  selectMinBy MetricsRow.mse l

/-- `metrics_df.loc[metrics_df['R² Score'].idxmax()]` (make_dataset.py
line 334). -/
def best_r2_model (l : List MetricsRow) : Option MetricsRow :=
  selectMaxBy MetricsRow.r2 l

/-- The final selection (make_dataset.py lines 339–352): the overall best
model's name when the two criteria agree, otherwise `none` (the script
then prints that further consideration is needed). -/
def overall_best (l : List MetricsRow) : Option String :=
  match best_mse_model l, best_r2_model l with
  | some bm, some br => if bm.model = br.model then some bm.model else none
  | _, _ => none

/-! ### The training loop -/

/-- The six estimator constructions of the `models` dict, with the
`random_state` each receives. -/
inductive Estimator where
  | linearRegression
  | randomForest (random_state : ℕ)
  | decisionTree (random_state : ℕ)
  | gradientBoosting (random_state : ℕ)
  | kneighbors
  | xgbRegressor (random_state : ℕ)
deriving DecidableEq

/-- The `models` dict (make_dataset.py lines 278–285), in insertion
order. -/
def models : List (String × Estimator) :=
  [("Multiple Linear Regression", .linearRegression),
   ("Random Forest", .randomForest 2),
   ("Decision Tree Regression", .decisionTree 2),
   ("Boosted Decision Tree Regression", .gradientBoosting 2),
   ("K-nearest neighbors (KNN)", .kneighbors),
   ("XGBoost", .xgbRegressor 2)]

/-- The arguments of a `GridSearchCV` call: the `n_neighbors` grid, the
number of folds, and the scoring string. -/
structure GridSearchSpec where
  param_grid : List ℕ
  cv : ℕ
  scoring : String
deriving DecidableEq

/-- `param_grid = {'n_neighbors': range(1, 31)}`: the integers 1..30. -/
def knn_param_grid : List ℕ := List.range' 1 30

/-- The library calls of the training loop, abstracted: plain fitting of an
estimator, grid-search fitting (`GridSearchCV(...).fit(...).best_estimator_`),
and prediction on the test set. -/
structure FitOracle (Train Test Model : Type) where
  fit : Estimator → Train → Model
  gridSearchFit : GridSearchSpec → Train → Model
  predict : Model → Test → List ℚ

/-- One iteration of the training loop (make_dataset.py lines 289–307):
KNN alone goes through `GridSearchCV(KNeighborsRegressor(), param_grid,
cv=10, scoring='r2')`; every other model is fitted directly; the
prediction on `X_test` is stored under the model's name.  The second
component logs the grid-search calls the iteration makes. -/
def train_step {Train Test Model : Type} (O : FitOracle Train Test Model)
    (X_train : Train) (X_test : Test) (nm : String × Estimator) :
    (String × List ℚ) × List (String × GridSearchSpec) :=
  if nm.1 = "K-nearest neighbors (KNN)" then
    let spec : GridSearchSpec := ⟨knn_param_grid, 10, "r2"⟩
    let best_knn := O.gridSearchFit spec X_train
    ((nm.1, O.predict best_knn X_test), [(nm.1, spec)])
  else
    ((nm.1, O.predict (O.fit nm.2 X_train) X_test), [])

/-- The whole training loop: the `predictions` mapping in insertion order,
and the log of grid-search calls. -/
def train_loop {Train Test Model : Type} (O : FitOracle Train Test Model)
    (X_train : Train) (X_test : Test) :
    List (String × List ℚ) × List (String × GridSearchSpec) :=
  ((models.map (fun nm => (train_step O X_train X_test nm).1)),
   (models.map (fun nm => (train_step O X_train X_test nm).2)).flatten)

/-! ### The mutual-information step -/

/-- `pd.factorize` codes: each value is replaced by the index of its first
occurrence among the distinct values seen so far; missing values get the
sentinel code `-1` and are not enumerated. -/
def factorizeGo (uniques : List Val) : List Val → List ℤ
  | [] => []
  | x :: rest =>
    if x = Val.vnull then (-1) :: factorizeGo uniques rest
    else
      match uniques.indexOf? x with
      | some i => (i : ℤ) :: factorizeGo uniques rest
      | none => (uniques.length : ℤ) :: factorizeGo (uniques ++ [x]) rest

/-- The codes of a column under `pd.factorize`. -/
def factorizeCodes (xs : List Val) : List ℤ := factorizeGo [] xs

/-- The cells of the column labelled `c`. -/
def DF.getCol (df : DF) (c : String) : List Val :=
  df.rows.map (fun r => r.getD (df.cols.indexOf c) .vnull)

/-- Replace the cells of the column labelled `c`. -/
def DF.setCol (df : DF) (c : String) (vals : List Val) : DF :=
  { df with
    rows := (df.rows.zip vals).map
      (fun rv => rv.1.set (df.cols.indexOf c) rv.2) }

/-- `mi_data_set[column], _ = mi_data_set[column].factorize()` for one
column. -/
def factorize_step (df : DF) (c : String) : DF :=
  df.setCol c ((factorizeCodes (df.getCol c)).map (fun i => Val.num i))

/-- `df.drop('price', axis=1)`. -/
def DF.dropCol (df : DF) (c : String) : DF :=
  { cols := df.cols.eraseIdx (df.cols.indexOf c),
    rows := df.rows.map (fun r => r.eraseIdx (df.cols.indexOf c)) }

/-- `Series.dtype == 'int64'` for a column, in the cell model: every cell
is an integer number. -/
def colIsInt (xs : List Val) : Bool :=
  xs.all (fun v => match v with | .num q => decide (q.den = 1) | _ => false)

/-- The columns factorized before the MI computation
(make_dataset.py line 104). -/
def factorized_columns : List String :=
  ["date", "street", "city", "statezip", "country"]

/-- The MI step (make_dataset.py lines 103–109), with
`mutual_info_regression` abstracted as an oracle taking the feature
table, the target column, the discrete-feature flags and the
`random_state`.  `data_set.copy()` is modelled by binding the table's
value: the factorize assignments build the new table bound to
`mi_data_set`, and the table bound to `data_set` is returned unchanged
alongside the scores. -/
def mi_block (mir : DF → List Val → List Bool → ℕ → List ℚ) (data_set : DF) :
    DF × List ℚ :=
  let mi_data_set := data_set
  let mi_data_set := factorized_columns.foldl factorize_step mi_data_set
  let discrete_features_mi :=
    (mi_data_set.cols.filter (· ≠ "price")).map
      (fun c => colIsInt (mi_data_set.getCol c))
  let mi_scores :=
    mir (mi_data_set.dropCol "price") (mi_data_set.getCol "price")
      discrete_features_mi 0
  (data_set, mi_scores)

/-! ### Determinism of the pipeline -/

/-- A library routine that may consume ambient randomness: it is called
with an optional `random_state` and the ambient entropy of the run. -/
structure SeededFun (α β : Type) where
  call : Option ℕ → ℕ → α → β

/-- A seeded routine behaves like sklearn's: whenever a `random_state` is
passed, the result does not depend on the ambient entropy. -/
def SeededFun.SeedDet {α β : Type} (f : SeededFun α β) : Prop :=
  ∀ s e₁ e₂ x, f.call (some s) e₁ x = f.call (some s) e₂ x

/-- The library calls of the pipeline that take a `random_state`, plus the
deterministic ones.  `fitLinear` (ordinary least squares) and
`fitKNNGrid` (`GridSearchCV` with `cv=10`, an unshuffled `KFold`, over
`KNeighborsRegressor`) take no `random_state` parameter and are
deterministic algorithms, so they are plain functions; so are `predict`
and the extraction of `y_test` from the split. -/
structure PipelineOracles (CSV SplitT ModelT : Type) where
  mutual_info : SeededFun CSV (List ℚ)
  split : SeededFun CSV SplitT
  fitRandomForest : SeededFun SplitT ModelT
  fitDecisionTree : SeededFun SplitT ModelT
  fitGradientBoosting : SeededFun SplitT ModelT
  fitXGB : SeededFun SplitT ModelT
  fitLinear : SplitT → ModelT
  fitKNNGrid : SplitT → ModelT
  predict : ModelT → SplitT → List ℚ
  y_test : SplitT → List ℚ

/-- The randomized skeleton of the pipeline: every `random_state` the
script passes is a literal (`0` for `mutual_info_regression`, `2` for
`train_test_split` and for the four seeded estimators), and `entropy` is
the ambient randomness of the run.  Returns the MI scores, the
predictions, the metrics table and the overall best model. -/
noncomputable def pipeline_run {CSV SplitT ModelT : Type}
    (O : PipelineOracles CSV SplitT ModelT) (entropy : ℕ) (csv : CSV) :
    List ℚ × List (String × List ℚ) × List MetricsRow × Option String :=
  let mi_scores := O.mutual_info.call (some 0) entropy csv
  let sp := O.split.call (some 2) entropy csv
  let predictions : List (String × List ℚ) := models.map (fun nm =>
    (nm.1, O.predict
      (match nm.2 with
       | .linearRegression => O.fitLinear sp
       | .randomForest s => O.fitRandomForest.call (some s) entropy sp
       | .decisionTree s => O.fitDecisionTree.call (some s) entropy sp
       | .gradientBoosting s => O.fitGradientBoosting.call (some s) entropy sp
       | .kneighbors => O.fitKNNGrid sp
       | .xgbRegressor s => O.fitXGB.call (some s) entropy sp) sp))
  let mdf := metrics_df (O.y_test sp) predictions
  (mi_scores, predictions, mdf, overall_best mdf)

/-! ### Concrete inputs used by the witnesses -/

/-- A tiny two-column table. -/
def dfEx : DF :=
  { cols := ["bedrooms", "price"],
    rows := [[Val.num 3, Val.num 100], [Val.num 2, Val.vnull]] }

/-- A `pd.read_csv` that succeeds with `dfEx`. -/
def rcOk : String → Except PyExc DF := fun _ => .ok dfEx

/-- A `pd.read_csv` that raises `FileNotFoundError`. -/
def rcNotFound : String → Except PyExc DF :=
  fun _ => .error (.fileNotFound "missing")

/-- A `pd.read_csv` that raises `pd.errors.EmptyDataError`. -/
def rcEmpty : String → Except PyExc DF :=
  fun _ => .error (.emptyDataError "no columns to parse")

/-- A `pd.read_csv` that raises some other exception. -/
def rcOther : String → Except PyExc DF :=
  fun _ => .error (.otherError "parser error")

/-- A table with the ten selected columns and one extra (`floors`), one
row. -/
def dfSelEx : DF :=
  { cols := ["floors", "bedrooms", "bathrooms", "sqft_living", "sqft_lot",
             "sqft_above", "street", "city", "statezip", "yr_built", "price"],
    rows := [[Val.num 1, Val.num 3, Val.num 2, Val.num 1500, Val.num 4000,
              Val.num 1200, Val.str "18810 Densmore Ave N", Val.str "Shoreline",
              Val.str "WA 98133", Val.num 1955, Val.num 313000]] }

/-- Two concrete metric rows: model "A" wins on both MSE and R². -/
def mrowEx1 : MetricsRow :=
  { model := "A", mae := 1, mse := 1, rmse := 1, r2 := 5 }

/-- The second concrete metric row. -/
def mrowEx2 : MetricsRow :=
  { model := "B", mae := 2, mse := 2, rmse := 2, r2 := 3 }

/-- The concrete metrics table of the selection witness. -/
def mrowsEx : List MetricsRow := [mrowEx1, mrowEx2]

/-- Pipeline oracles over trivial types whose seeded routines ignore the
ambient entropy whenever a seed is passed. -/
def oraclesEx : PipelineOracles Unit Unit Unit :=
  { mutual_info := ⟨fun s e _ => [(s.getD 0 : ℚ) + (match s with | some _ => 0 | none => e)]⟩,
    split := ⟨fun _ _ _ => ()⟩,
    fitRandomForest := ⟨fun _ _ _ => ()⟩,
    fitDecisionTree := ⟨fun _ _ _ => ()⟩,
    fitGradientBoosting := ⟨fun _ _ _ => ()⟩,
    fitXGB := ⟨fun _ _ _ => ()⟩,
    fitLinear := fun _ => (),
    fitKNNGrid := fun _ => (),
    predict := fun _ _ => [1, 2],
    y_test := fun _ => [1, 3] }

/-! ## Theorems -/

/-- C1: for every file path, `load_dataset` returns the parsed table on
success; on `FileNotFoundError`, on `EmptyDataError`, and on any other
exception it prints the corresponding diagnostic and returns `None`; and
no exception escapes the function (the `try/except` run always terminates
normally, returning exactly what `load_dataset` computes). -/
theorem load_dataset_error_handling
    (read_csv : String → Except PyExc DF) (file_path : String) :
    load_dataset_run read_csv file_path = .ok (load_dataset read_csv file_path) ∧
    (∀ df, read_csv file_path = .ok df →
      load_dataset read_csv file_path = (some df, [df.headStr])) ∧
    (∀ m, read_csv file_path = .error (.fileNotFound m) →
      load_dataset read_csv file_path =
        (none, ["The file was not found. Please check the file path."])) ∧
    (∀ m, read_csv file_path = .error (.emptyDataError m) →
      load_dataset read_csv file_path =
        (none, ["The file is empty. Please provide a valid dataset."])) ∧
    (∀ m, read_csv file_path = .error (.otherError m) →
      load_dataset read_csv file_path = (none, ["An error occurred: " ++ m])) ∧
    (∀ e, read_csv file_path = .error e →
      (load_dataset read_csv file_path).1 = none) := by
  cases h : read_csv file_path with
  | ok df =>
    refine ⟨?_, ?_, ?_, ?_, ?_, ?_⟩ <;>
      simp [load_dataset_run, load_dataset, pyTry, Except.map, h]
  | error e =>
    cases e <;>
      (refine ⟨?_, ?_, ?_, ?_, ?_, ?_⟩ <;>
        simp [load_dataset_run, load_dataset, pyTry, Except.map, PyExc.message, h])

/-- C2: when loading fails, the `None` that `load_dataset` returned is never
checked: the top level goes on to `data_set.info()`, which raises an
`AttributeError` that nothing catches, so the script dies with an unhandled
exception. -/
theorem loaded_none_uncaught (read_csv : String → Except PyExc DF)
    (h : (load_dataset read_csv the_file_path).1 = none) :
    script_prologue read_csv =
      .error (.attributeError "NoneType object has no attribute info") := by
  simp only [script_prologue, h]

/-- Witness for C2 at a concrete failing reader. -/
theorem loaded_none_uncaught_witness :
    script_prologue rcNotFound =
      .error (.attributeError "NoneType object has no attribute info") :=
  loaded_none_uncaught rcNotFound rfl

/-- C8: `check_data_quality` always returns Python's `None` (the unit of
the model), leaves its argument as it was, prints the duplicate-row count
and the per-column null counts on a table, and prints a message instead of
raising when given `None`. -/
theorem check_data_quality_contract (data_set : Option DF) :
    (check_data_quality data_set).2.1 = data_set ∧
    (check_data_quality data_set).2.2 = () ∧
    (data_set = none → (check_data_quality data_set).1 =
      ["Data set is None, cannot perform data quality checks."]) ∧
    (∀ df, data_set = some df → (check_data_quality data_set).1 =
      ["Number of duplicate rows: " ++ toString df.dupCount,
       "Null values in each column:"] ++ renderNullCounts df.nullCounts) := by
  cases data_set <;> simp [check_data_quality]

/-- Label lookup in a projected row list: projecting a row to the columns
`sel` and reading column `c ∈ sel` reads the original cell. -/
theorem getD_map_indexOf {α : Type} (f : String → α) (d : α) :
    ∀ (sel : List String) (c : String), c ∈ sel →
      (sel.map f).getD (sel.indexOf c) d = f c := by
  intro sel
  induction sel with
  | nil => intro c hc; cases hc
  | cons a tl ih =>
    intro c hc
    by_cases hca : c = a
    · subst hca
      simp [List.indexOf_cons, List.getD]
    · have hctl : c ∈ tl := by
        rcases List.mem_cons.mp hc with h1 | h1
        · exact absurd h1 hca
        · exact h1
      have hidx : (a :: tl).indexOf c = tl.indexOf c + 1 := by
        simp [List.indexOf_cons, beq_iff_eq, Ne.symm hca]
      rw [hidx]
      simpa [List.getD] using ih c hctl

/-- C7: immediately after the feature selection the working table's columns
are exactly `selected_features`, in that order, and its rows are unchanged:
the row count is preserved and every row's cell at each selected column is
the cell the row had before. -/
theorem feature_selection_fixed_columns (df : DF) (i : ℕ) (c : String) :
    (df.selectCols selected_features).cols = selected_features ∧
    (df.selectCols selected_features).rows.length = df.rows.length ∧
    (c ∈ selected_features →
      (df.selectCols selected_features).cell i c = df.cell i c) := by
  refine ⟨rfl, by simp [DF.selectCols], ?_⟩
  intro hc
  rcases h : df.rows[i]? with _ | r
  · simp [DF.cell, DF.selectCols, List.getD_eq_getElem?_getD, List.getElem?_map, h]
  · have h1 : (df.rows.map (fun r => selected_features.map
        (fun c' => r.getD (df.cols.indexOf c') Val.vnull))).getD i []
        = selected_features.map (fun c' => r.getD (df.cols.indexOf c') Val.vnull) := by
      simp [List.getD_eq_getElem?_getD, List.getElem?_map, h]
    have h2 : df.rows.getD i [] = r := by
      simp [List.getD_eq_getElem?_getD, h]
    show ((df.rows.map (fun r => selected_features.map
        (fun c' => r.getD (df.cols.indexOf c') Val.vnull))).getD i []).getD
          (selected_features.indexOf c) Val.vnull
      = (df.rows.getD i []).getD (df.cols.indexOf c) Val.vnull
    rw [h1, h2]
    exact getD_map_indexOf (fun c' => r.getD (df.cols.indexOf c') Val.vnull)
      Val.vnull selected_features c hc

/-- Counterexample to C3: on `exTable` the IQR method flags `exRow` as an
outlier on `sqft_lot` (upper bound `Q3 + 1.5·IQR = 0 < 10`), yet `exRow`
survives into `dataset_cleaned`, because the removal step uses only the
Z-score criterion (`|z| = 2 < 3` here): a row flagged by the IQR method is
not thereby absent from the cleaned dataset. -/
theorem iqr_flagged_row_survives :
    exRow ∈ iqrOutliers exTable NumVar.sqft_lot ∧
      exRow ∈ dataset_cleaned exTable := by
  have hq3 : pandasQuantile [(0:ℚ),0,0,0,10] (3/4) = 0 := by
    have hs : sortQ [(0:ℚ),0,0,0,10] = [0,0,0,0,10] := by
      norm_num [sortQ, insertSorted]
    simp only [pandasQuantile, hs]
    norm_num
    rfl
  have hub : iqrUpperBound exTable NumVar.sqft_lot = 0 := by
    have hcol : colVals exTable NumVar.sqft_lot = [0,0,0,0,10] := by
      simp [colVals, exTable, exRowA, NumVar.get]
    have hq1 : pandasQuantile [(0:ℚ),0,0,0,10] (1/4) = 0 := by
      have hs : sortQ [(0:ℚ),0,0,0,10] = [0,0,0,0,10] := by
        norm_num [sortQ, insertSorted]
      simp only [pandasQuantile, hs]
      norm_num
    rw [iqrUpperBound, hcol, hq1, hq3]
    norm_num
  constructor
  · refine List.mem_filter.mpr ⟨?_, ?_⟩
    · simp [exTable, exRow]
    · rw [hub]
      norm_num [exRow, exRowA, NumVar.get]
  · refine List.mem_filter.mpr ⟨?_, ?_⟩
    · simp [exTable, exRow]
    · norm_num [zKeep, variables_to_check, exRow, exRowA, NumVar.get, colVals,
        exTable, meanQ, popVar]

/-- C3 (amended): the outlier stage detects outliers with both the IQR and
the Z-score method but only prints their counts; the cleaned dataset is
produced by the Z-score criterion alone, over the five variables that
exclude `yr_built`: a row of the working table is kept iff each of its
five checked squared deviations is below `9·σ²` (that is, `|z| < 3`), and
is removed iff some `|z| ≥ 3` — IQR flags cause no removal. -/
theorem dataset_cleaned_membership (t : List HouseRow) (r : HouseRow) :
    r ∈ dataset_cleaned t ↔ r ∈ t ∧ variables_to_check.Forall
      (fun v => (v.get r - meanQ (colVals t v)) ^ 2 < 9 * popVar (colVals t v)) := by
  simp [dataset_cleaned, List.mem_filter, zKeep, List.all_eq_true,
    variables_to_check, List.Forall]

/-- `selectMinBy` returns `none` only on the empty table. -/
theorem selectMinBy_eq_none {α : Type} (f : α → ℚ) (l : List α)
    (h : selectMinBy f l = none) : l = [] := by
  cases l with
  | nil => rfl
  | cons x xs =>
    exfalso
    rcases h2 : selectMinBy f xs with _ | bb <;>
      · simp only [selectMinBy, h2] at h
        first
        | exact Option.noConfusion h
        | exact absurd h (by split <;> simp)

/-- `selectMaxBy` returns `none` only on the empty table. -/
theorem selectMaxBy_eq_none {α : Type} (f : α → ℚ) (l : List α)
    (h : selectMaxBy f l = none) : l = [] := by
  cases l with
  | nil => rfl
  | cons x xs =>
    exfalso
    rcases h2 : selectMaxBy f xs with _ | bb <;>
      · simp only [selectMaxBy, h2] at h
        first
        | exact Option.noConfusion h
        | exact absurd h (by split <;> simp)

/-- The row `selectMinBy` picks is in the table and minimises `f`. -/
theorem selectMinBy_spec {α : Type} (f : α → ℚ) :
    ∀ (l : List α) (b : α), selectMinBy f l = some b →
      b ∈ l ∧ ∀ r ∈ l, f b ≤ f r := by
  intro l
  induction l with
  | nil => intro b hb; simp [selectMinBy] at hb
  | cons x xs ih =>
    intro b hb
    rcases h : selectMinBy f xs with _ | bb
    · have hxs : xs = [] := selectMinBy_eq_none f xs h
      subst hxs
      simp [selectMinBy] at hb
      subst hb
      simp
    · obtain ⟨hbbmem, hbble⟩ := ih bb h
      simp only [selectMinBy, h] at hb
      by_cases hle : f x ≤ f bb
      · rw [if_pos hle] at hb
        obtain rfl : x = b := by injection hb
        refine ⟨by simp, ?_⟩
        intro r hr
        rcases List.mem_cons.mp hr with h1 | h1
        · subst h1; exact le_refl _
        · exact le_trans hle (hbble r h1)
      · rw [if_neg hle] at hb
        obtain rfl : bb = b := by injection hb
        refine ⟨List.mem_cons_of_mem x hbbmem, ?_⟩
        intro r hr
        rcases List.mem_cons.mp hr with h1 | h1
        · subst h1; exact le_of_lt (lt_of_not_le hle)
        · exact hbble r h1

/-- The row `selectMaxBy` picks is in the table and maximises `f`. -/
theorem selectMaxBy_spec {α : Type} (f : α → ℚ) :
    ∀ (l : List α) (b : α), selectMaxBy f l = some b →
      b ∈ l ∧ ∀ r ∈ l, f r ≤ f b := by
  intro l
  induction l with
  | nil => intro b hb; simp [selectMaxBy] at hb
  | cons x xs ih =>
    intro b hb
    rcases h : selectMaxBy f xs with _ | bb
    · have hxs : xs = [] := selectMaxBy_eq_none f xs h
      subst hxs
      simp [selectMaxBy] at hb
      subst hb
      simp
    · obtain ⟨hbbmem, hbble⟩ := ih bb h
      simp only [selectMaxBy, h] at hb
      by_cases hle : f bb ≤ f x
      · rw [if_pos hle] at hb
        obtain rfl : x = b := by injection hb
        refine ⟨by simp, ?_⟩
        intro r hr
        rcases List.mem_cons.mp hr with h1 | h1
        · subst h1; exact le_refl _
        · exact le_trans (hbble r h1) hle
      · rw [if_neg hle] at hb
        obtain rfl : bb = b := by injection hb
        refine ⟨List.mem_cons_of_mem x hbbmem, ?_⟩
        intro r hr
        rcases List.mem_cons.mp hr with h1 | h1
        · subst h1; exact le_of_lt (lt_of_not_le hle)
        · exact hbble r h1

/-- C4: the model the script names best-by-MSE has minimal MSE over the
metrics table, the one named best-by-R² has maximal R² Score, and the
script declares an overall best model exactly when the two names coincide
(otherwise it prints that further consideration is needed, `none` here). -/
theorem best_model_selection (l : List MetricsRow) (bm br : MetricsRow)
    (hbm : best_mse_model l = some bm) (hbr : best_r2_model l = some br) :
    bm ∈ l ∧ br ∈ l ∧
    (∀ r ∈ l, bm.mse ≤ r.mse) ∧ (∀ r ∈ l, r.r2 ≤ br.r2) ∧
    overall_best l = (if bm.model = br.model then some bm.model else none) := by
  obtain ⟨hm1, hm2⟩ := selectMinBy_spec MetricsRow.mse l bm hbm
  obtain ⟨hr1, hr2⟩ := selectMaxBy_spec MetricsRow.r2 l br hbr
  exact ⟨hm1, hr1, hm2, hr2, by simp [overall_best, hbm, hbr]⟩

/-- Witness for C4 on a concrete two-row metrics table where model "A" wins
on both criteria. -/
theorem best_model_selection_witness :
    mrowEx1 ∈ mrowsEx ∧ mrowEx1 ∈ mrowsEx ∧
    (∀ r ∈ mrowsEx, mrowEx1.mse ≤ r.mse) ∧ (∀ r ∈ mrowsEx, r.r2 ≤ mrowEx1.r2) ∧
    overall_best mrowsEx =
      (if mrowEx1.model = mrowEx1.model then some mrowEx1.model else none) :=
  best_model_selection mrowsEx mrowEx1 mrowEx1 rfl rfl

/-- C5: the metrics table has exactly one row per entry of the predictions
mapping, in order; the row for a model holds its MAE, MSE, RMSE and R²
Score computed against the held-out `y_test`; and the stored RMSE is the
(nonnegative) square root of the stored MSE. -/
theorem metrics_table_shape (y_test : List ℚ) (predictions : List (String × List ℚ))
    (i : ℕ) (name : String) (pred : List ℚ) :
    (metrics_df y_test predictions).length = predictions.length ∧
    (metrics_df y_test predictions)[i]? =
      (predictions[i]?).map (fun np => eval_row y_test np.1 np.2) ∧
    eval_row y_test name pred =
      { model := name, mae := mean_absolute_error y_test pred,
        mse := mean_squared_error y_test pred,
        rmse := Real.sqrt (mean_squared_error y_test pred),
        r2 := r2_score y_test pred } ∧
    (eval_row y_test name pred).rmse ^ 2 = ((eval_row y_test name pred).mse : ℝ) ∧
    (0:ℝ) ≤ (eval_row y_test name pred).rmse := by
  refine ⟨by simp [metrics_df], by simp [metrics_df, List.getElem?_map], rfl, ?_,
    Real.sqrt_nonneg _⟩
  have hmse : (0:ℚ) ≤ mean_squared_error y_test pred := by
    unfold mean_squared_error
    apply div_nonneg
    · apply List.sum_nonneg
      intro x hx
      obtain ⟨t, ht, rfl⟩ := List.mem_map.mp hx
      positivity
    · exact Nat.cast_nonneg _
  show (Real.sqrt ((mean_squared_error y_test pred : ℚ) : ℝ)) ^ 2 = _
  rw [Real.sq_sqrt (by exact_mod_cast hmse)]
  rfl

/-- C6: the training loop covers exactly the six regressors of the `models`
dict (distinct names, `random_state=2` where one is taken); the only
grid search performed is for KNN, over `n_neighbors` 1..30 with 10-fold CV
scored by R²; and each of the six fitted models stores its prediction on
the test set under its own name (KNN through the grid search's best
estimator, the others through a direct fit). -/
theorem training_loop_six_models {Train Test Model : Type}
    (O : FitOracle Train Test Model) (X_train : Train) (X_test : Test) :
    models.length = 6 ∧
    models.map Prod.fst =
      ["Multiple Linear Regression", "Random Forest", "Decision Tree Regression",
       "Boosted Decision Tree Regression", "K-nearest neighbors (KNN)", "XGBoost"] ∧
    (models.map Prod.fst).Nodup ∧
    knn_param_grid = [1, 2, 3, 4, 5, 6, 7, 8, 9, 10, 11, 12, 13, 14, 15, 16, 17,
      18, 19, 20, 21, 22, 23, 24, 25, 26, 27, 28, 29, 30] ∧
    (train_loop O X_train X_test).2 =
      [("K-nearest neighbors (KNN)", ⟨knn_param_grid, 10, "r2"⟩)] ∧
    (train_loop O X_train X_test).1 = models.map (fun nm => (nm.1,
      if nm.1 = "K-nearest neighbors (KNN)"
      then O.predict (O.gridSearchFit ⟨knn_param_grid, 10, "r2"⟩ X_train) X_test
      else O.predict (O.fit nm.2 X_train) X_test)) := by
  refine ⟨rfl, rfl, by decide, by decide, ?_, ?_⟩
  · simp [train_loop, train_step, models]
  · simp [train_loop, train_step, models]

/-- C9: the mutual-information step computes on a copy: the table bound to
`data_set` after the MI block — every column included, the factorized ones
among them — is the table it was bound to before. -/
theorem mi_block_leaves_data_set (mir : DF → List Val → List Bool → ℕ → List ℚ)
    (data_set : DF) (c : String) :
    (mi_block mir data_set).1 = data_set ∧
    ((mi_block mir data_set).1).getCol c = data_set.getCol c :=
  ⟨rfl, rfl⟩

/-- C10: the pipeline's randomized outputs do not depend on the ambient
randomness of the run: since every randomized library call receives a
literal seed (`random_state=0` for mutual information, `random_state=2`
for the split and the four seeded estimators) and the remaining calls are
deterministic, two runs on the same input produce identical MI scores,
predictions, metric tables and best-model selections. -/
theorem pipeline_deterministic {CSV SplitT ModelT : Type}
    (O : PipelineOracles CSV SplitT ModelT)
    (hmi : O.mutual_info.SeedDet) (hsp : O.split.SeedDet)
    (hrf : O.fitRandomForest.SeedDet) (hdt : O.fitDecisionTree.SeedDet)
    (hgb : O.fitGradientBoosting.SeedDet) (hxgb : O.fitXGB.SeedDet)
    (e₁ e₂ : ℕ) (csv : CSV) :
    pipeline_run O e₁ csv = pipeline_run O e₂ csv := by
  unfold pipeline_run
  rw [hmi 0 e₁ e₂ csv, hsp 2 e₁ e₂ csv]
  simp only [models, List.map]
  rw [hrf 2 e₁ e₂ _, hdt 2 e₁ e₂ _, hgb 2 e₁ e₂ _, hxgb 2 e₁ e₂ _]

/-- Witness for C10 at concrete oracles (whose seeded calls ignore entropy
when a seed is given) and two different entropies. -/
theorem pipeline_deterministic_witness :
    pipeline_run oraclesEx 0 () = pipeline_run oraclesEx 1 () :=
  pipeline_deterministic oraclesEx
    (fun _ _ _ _ => rfl) (fun _ _ _ _ => rfl) (fun _ _ _ _ => rfl)
    (fun _ _ _ _ => rfl) (fun _ _ _ _ => rfl) (fun _ _ _ _ => rfl) 0 1 ()

end PropPredict
